import Mathlib

/-!
Shallow embedding of `src/modules/tautulli_connector.py` (tauticord).

The module polls the Tautulli monitoring API, turns one raw activity
payload into `Session`/`Activity` views, rebuilds the process-wide
`session_ids` table (index → session id) on each poll, and terminates a
stream by index (`stop_stream`).

Modelling conventions:
* Raw JSON-ish values are `PyVal`; dictionaries are association lists.
  `PyVal.vBad` stands for an opaque non-JSON value on which `int()` and
  `float()` fail and `str()` raises `ValueError` — it gives semantics to the
  `except ValueError` handler in `refresh_data`'s session loop.
* Exceptions are `Except`; the error component carries the Python
  exception class we need to distinguish (`KeyError`, `ValueError`,
  `TypeError`, anything else).
* The global `session_ids` dict is threaded explicitly as an `IndexTable`
  (an insertion-ordered list of key/value pairs, like a Python dict).
* `float` arithmetic on the bandwidth path is modelled exactly over `Int`;
  the payload values we model are integers or integer-numeral strings.
-/

set_option autoImplicit false

deriving instance DecidableEq for Except

namespace Tauticord

/-- A raw payload value: integer, string, JSON null, or `vBad`, an opaque
non-JSON object on which `int()`/`float()` raise and `str()` raises
`ValueError` (the session-level value error anticipated by the source's
`except ValueError` handler). -/
inductive PyVal where
  | vInt (n : Int)
  | vStr (s : String)
  | vNone
  | vBad
  deriving DecidableEq, Repr

/-- The Python exception classes the module's handlers distinguish. -/
inductive PyErr where
  | keyError
  | valueError
  | typeError
  | otherError
  deriving DecidableEq, Repr

/-- Python `int(s)` on a string: optional surrounding spaces, an optional
sign, then decimal digits (digit-group underscores and non-space whitespace
are not modelled). -/
def parseIntStr (s : String) : Option Int :=
  let cs := ((s.toList.dropWhile (fun c => c = ' ')).reverse.dropWhile
    (fun c => c = ' ')).reverse
  let ds := match cs with
    | '-' :: rest => rest
    | '+' :: rest => rest
    | _ => cs
  if ds.length > 0 && ds.all Char.isDigit then
    let n : Nat := ds.foldl (fun acc c => acc * 10 + (c.toNat - 48)) 0
    some (match cs with
      | '-' :: _ => -(n : Int)
      | _ => (n : Int))
  else
    none

/-- Python `int(value)`: identity on ints, numeral parsing on strings,
failure (some exception) on `None` and on `vBad`. `none` means the call
raises; every call site in the source wraps it in a bare `except`. -/
def pyToInt (v : PyVal) : Option Int :=
  match v with
  | .vInt n => some n
  | .vStr s => parseIntStr s
  | .vNone => none
  | .vBad => none

/-- Python `float(value)` restricted to the integer-valued inputs we model:
identity on ints, integer-numeral parsing on strings, failure otherwise. -/
def pyToFloat (v : PyVal) : Option Int :=
  match v with
  | .vInt n => some n
  | .vStr s => parseIntStr s
  | .vNone => none
  | .vBad => none

/-- Python `str(value)`; raises `ValueError` exactly on `vBad`. -/
def pyStrE (v : PyVal) : Except PyErr String :=
  match v with
  | .vInt n => .ok (toString n)
  | .vStr s => .ok s
  | .vNone => .ok "None"
  | .vBad => .error .valueError

/-- Python binary `-` on raw payload values: defined for `int - int`,
`TypeError` otherwise (strings — numeric or not — `None`, `vBad`). -/
def pySub (a b : PyVal) : Except PyErr PyVal :=
  match a, b with
  | .vInt x, .vInt y => .ok (.vInt (x - y))
  | _, _ => .error .typeError

/-- A raw session record / raw payload scalar area: a Python dict. -/
abbrev PyDict := List (String × PyVal)

/-- Python `d[k]` on an association list: first binding wins. -/
def dictFind (d : PyDict) (k : String) : Option PyVal :=
  (d.find? (fun p => p.1 = k)).map (fun p => p.2)

/-- Python `d.get(k, dflt)`. -/
def dictGetD (d : PyDict) (k : String) (dflt : PyVal) : PyVal :=
  (dictFind d k).getD dflt

/-- One raw session record, as handed to `Session.__init__`. -/
abbrev SessionData := PyDict

/-- `Session.duration_milliseconds`: `value = data.get('duration', 0);
try: value = int(value); except: value = 0; return int(value)`. -/
def duration_milliseconds (s : SessionData) : Int :=
  (pyToInt (dictGetD s "duration" (.vInt 0))).getD 0

/-- `Session.location_milliseconds`: same coercion applied to
`view_offset`. -/
def location_milliseconds (s : SessionData) : Int :=
  (pyToInt (dictGetD s "view_offset" (.vInt 0))).getD 0

/-- `Session.progress_percentage`: `0` if `duration_milliseconds` is falsy
(i.e. `0`), else `int(location / duration)` — float true division then
`int()` truncation toward zero, which is `Int.tdiv` exactly. -/
def progress_percentage (s : SessionData) : Int :=
  if duration_milliseconds s = 0 then 0
  else Int.tdiv (location_milliseconds s) (duration_milliseconds s)

/-- `Session.id`: `self._data['session_id']` — `KeyError` when the key is
absent. -/
def session_id (s : SessionData) : Except PyErr PyVal :=
  match dictFind s "session_id" with
  | none => .error .keyError
  | some v => .ok v

/-- `str(session.id)` as evaluated at line 321 of the source: the dict
access may raise `KeyError`, the `str()` call may raise `ValueError`. -/
def session_id_read (s : SessionData) : Except PyErr String :=
  match session_id s with
  | .error e => .error e
  | .ok v => pyStrE v

/-- `Session.stream_container_decision` /
`Session.is_transcoding`: `data['stream_container_decision'] == 'transcode'`;
the dict access raises `KeyError` when the key is absent, the comparison
itself never raises. -/
def is_transcoding (s : SessionData) : Except PyErr Bool :=
  match dictFind s "stream_container_decision" with
  | none => .error .keyError
  | some v => .ok (v = PyVal.vStr "transcode")

/-- One raw activity payload. The Python payload is a single dict; we keep
the `'sessions'` key apart from the scalar fields: `hasSessions` records
whether the key is present, `sessions` is its list value when present, and
`fields` holds every other key. -/
structure ActivityData where
  hasSessions : Bool
  sessions : List SessionData
  fields : PyDict
  deriving DecidableEq, Repr

/-- Python truthiness of the payload dict: it has at least one key. -/
def truthy (d : ActivityData) : Bool :=
  d.hasSessions || !d.fields.isEmpty

/-- `Activity.sessions`: `self._data.get('sessions', [])`, one `Session`
view per record, in payload order. -/
def sessionsOf (d : ActivityData) : List SessionData :=
  if d.hasSessions then d.sessions else []

/-- `Activity.stream_count`: `value = data.get('stream_count', 0);
try: return int(value); except: return 0`. -/
def stream_count (d : ActivityData) : Int :=
  (pyToInt (dictGetD d.fields "stream_count" (.vInt 0))).getD 0

/-- Modelled from the spec: `utils.human_bitrate` (the repository's
`modules/utils.py` is not under `src/`) renders a bitrate as a displayable
unit string. We model it as a total rendering of the integer bit count; the
claims only inspect whether a rendering is produced, never its text. -/
def human_bitrate (bits : Int) : String :=
  toString bits ++ " bps"

/-- `Activity.total_bandwidth`: `value = data.get('total_bandwidth', 0);
try: return human_bitrate(float(value) * 1024); except: return None`. -/
def total_bandwidth (d : ActivityData) : Option String :=
  (pyToFloat (dictGetD d.fields "total_bandwidth" (.vInt 0))).map
    (fun n => human_bitrate (n * 1024))

/-- `Activity.lan_bandwidth`: same shape over `lan_bandwidth`. -/
def lan_bandwidth (d : ActivityData) : Option String :=
  (pyToFloat (dictGetD d.fields "lan_bandwidth" (.vInt 0))).map
    (fun n => human_bitrate (n * 1024))

/-- `Activity.wan_bandwidth` (source lines 182-190): read both raw fields
with default `0`, subtract them **outside** any `try` (so a `TypeError`
from `total - lan` propagates), then `try: human_bitrate(float(value) *
1024) except: None`. -/
def wan_bandwidth (d : ActivityData) : Except PyErr (Option String) :=
  let total := dictGetD d.fields "total_bandwidth" (.vInt 0)
  let lan := dictGetD d.fields "lan_bandwidth" (.vInt 0)
  match pySub total lan with
  | .error e => .error e
  | .ok v =>
    .ok ((pyToFloat v).map (fun n => human_bitrate (n * 1024)))

/-- The comprehension `[s.is_transcoding for s in self.sessions]`,
evaluated left to right; the first failing `is_transcoding` read aborts it
with that exception. -/
def mapIsTranscoding : List SessionData → Except PyErr (List Bool)
  | [] => .ok []
  | s :: rest =>
    match is_transcoding s with
    | .error e => .error e
    | .ok b =>
      match mapIsTranscoding rest with
      | .error e => .error e
      | .ok bs => .ok (b :: bs)

/-- `Activity.transcode_count`:
`max([0, [s.is_transcoding for s in self.sessions].count(True)])`;
evaluating the comprehension reads every session's
`stream_container_decision`, so a missing key raises `KeyError`. -/
def transcode_count (d : ActivityData) : Except PyErr Int :=
  match mapIsTranscoding (sessionsOf d) with
  | .error e => .error e
  | .ok flags => .ok (max 0 (flags.count true))

/-- Exception behaviour of `Activity.message`: the overview string reads
`stream_count` (never raises), and only when it is positive also
`transcode_count` (may raise `KeyError`); `total_bandwidth` and
`lan_bandwidth` swallow their own errors. We track only whether the
property raises — the claims never inspect the overview text. -/
def message_exc (d : ActivityData) : Except PyErr Unit :=
  if 0 < stream_count d then
    match transcode_count d with
    | .error e => .error e
    | .ok _ => .ok ()
  else .ok ()

/-- The process-wide `session_ids` dict (index → session id string),
insertion-ordered like a Python dict. -/
abbrev IndexTable := List (Nat × String)

/-- `stream_number in session_ids.keys()` / `session_ids[stream_number]`. -/
def lookupIndex (t : IndexTable) (n : Nat) : Option String :=
  (t.find? (fun p => p.1 = n)).map (fun p => p.2)

/-- The local state of `refresh_data`'s session loop: the `count` variable,
the `session_details` list (each `TautulliStreamInfo` recorded as its
`session_number` paired with the wrapped session record), and the global
`session_ids` dict being rebuilt. -/
structure LoopState where
  count : Nat
  details : List (Nat × SessionData)
  table : IndexTable
  deriving DecidableEq, Repr

/-- The `for session in sessions` loop of `refresh_data` (lines 317-324).
Per iteration, inside `try`: `count += 1`,
`session_details.append(TautulliStreamInfo(session, count))`, then
`session_ids[count] = str(session.id)`. A `ValueError` from the last
statement is caught (`_error_and_analytics`, then `pass`) — but the
analytics call itself is unguarded, so when it raises, that exception (not
a `KeyError`) escapes the loop with the table as built so far. Any other
exception (a `KeyError` from the missing `session_id` key) escapes
immediately, likewise leaving the partially rebuilt table in the global. -/
def run_sessions_loop (analyticsRaises : Bool) :
    List SessionData → LoopState → Except (PyErr × LoopState) LoopState
  | [], st => .ok st
  | s :: rest, st =>
    let c := st.count + 1
    let det := st.details ++ [(c, s)]
    match session_id_read s with
    | .ok sid =>
      run_sessions_loop analyticsRaises rest ⟨c, det, st.table ++ [(c, sid)]⟩
    | .error .valueError =>
      if analyticsRaises then .error (.otherError, ⟨c, det, st.table⟩)
      else run_sessions_loop analyticsRaises rest ⟨c, det, st.table⟩
    | .error e => .error (e, ⟨c, det, st.table⟩)

/-- What `refresh_data` returns, minus the rendered strings: the
`error_occurred` flag of the `TautulliDataResponse` (true exactly for the
`"**Connection lost.**"` response), the stream count, whether an `Activity`
object was returned (vs `None`), the online flag, and the
`TautulliStreamInfo` list as (session_number, record) pairs. -/
structure RefreshResult where
  connectionLost : Bool
  count : Nat
  hasActivity : Bool
  online : Bool
  details : List (Nat × SessionData)
  deriving DecidableEq, Repr

/-- The failure response built at lines 330-331: connection lost, zero
streams, no activity, Plex assumed offline. -/
def connectionLostResult : RefreshResult :=
  ⟨true, 0, false, false, []⟩

/-- The environment `refresh_data` runs against: the payload returned by
`self.api.activity()` (`none` for a `None` return; an untruthy dict is the
other falsy case), the result of `is_plex_server_online()`, and whether
`self.analytics.event(...)` raises when invoked. -/
structure ApiBehavior where
  activity : Option ActivityData
  serverOnline : Bool
  analyticsRaises : Bool
  deriving DecidableEq, Repr

/-- `TautulliConnector.refresh_data` (lines 302-331), threading the global
`session_ids` explicitly: the result pairs the returned data with the
global's value afterwards, on the exception path too.
* Falsy payload: fall through to the connection-lost return; the global is
  **not** touched.
* Truthy payload: run the session loop starting from `session_ids = {}`.
  On a `KeyError` escaping the loop, or on a `KeyError` from evaluating
  `activity.message` in the success return, the `except KeyError` handler
  runs `_error_and_analytics` (which propagates any analytics exception)
  and falls through to the connection-lost return.
* `is_plex_server_online()` is modelled as returning `api.serverOnline`
  without raising. -/
def refresh_data (api : ApiBehavior) (prev : IndexTable) :
    Except (PyErr × IndexTable) (RefreshResult × IndexTable) :=
  match api.activity with
  | none => .ok (connectionLostResult, prev)
  | some d =>
    if truthy d then
      match run_sessions_loop api.analyticsRaises (sessionsOf d) ⟨0, [], []⟩ with
      | .ok st =>
        match message_exc d with
        | .error .keyError =>
          if api.analyticsRaises then .error (.otherError, st.table)
          else .ok (connectionLostResult, st.table)
        | .error e => .error (e, st.table)
        | .ok _ =>
          .ok (⟨false, st.count, true, api.serverOnline, st.details⟩, st.table)
      | .error (.keyError, st) =>
        if api.analyticsRaises then .error (.otherError, st.table)
        else .ok (connectionLostResult, st.table)
      | .error (e, st) => .error (e, st.table)
    else .ok (connectionLostResult, prev)

/-- The four user-visible outcomes of `stop_stream`. -/
inductive StopResult where
  | invalidStream
  | stopped
  | couldNotStop
  | somethingWentWrong
  deriving DecidableEq, Repr

/-- `TautulliConnector.stop_stream` (lines 333-350). `terminate` models
`self.api.terminate_session(session_id, message)`: a boolean result or a
raised exception. The function only reads `session_ids`; we return the
table alongside the outcome to state that explicitly. The `except
Exception` handler calls `_error_and_analytics`, which is unguarded, so an
analytics exception escapes `stop_stream` instead of reaching the final
`return "Something went wrong."`. -/
def stop_stream (terminate : String → Except Unit Bool)
    (analyticsRaises : Bool) (t : IndexTable) (n : Nat) :
    Except PyErr (StopResult × IndexTable) :=
  match lookupIndex t n with
  | none => .ok (.invalidStream, t)
  | some sid =>
    match terminate sid with
    | .ok true => .ok (.stopped, t)
    | .ok false => .ok (.couldNotStop, t)
    | .error _ =>
      if analyticsRaises then .error .otherError
      else .ok (.somethingWentWrong, t)

/-- A terminate stub that reports the server refusing the termination. -/
def alwaysDeny : String → Except Unit Bool := fun _ => .ok false

/-- A terminate stub whose API call raises (transport error). -/
def alwaysRaise : String → Except Unit Bool := fun _ => .error ()

/-- `Except.isOk` spelt out, to state no-crash results. -/
def exceptOk {ε α : Type} (e : Except ε α) : Bool :=
  match e with
  | .ok _ => true
  | .error _ => false

/-- The table the global `session_ids` holds after a `refresh_data` call,
whether it returned or raised. -/
def tableAfter (r : Except (PyErr × IndexTable) (RefreshResult × IndexTable)) :
    IndexTable :=
  match r with
  | .ok (_, t) => t
  | .error (_, t) => t

/-! ### Helper lemmas -/

theorem session_id_read_cases (s : SessionData) :
    (∃ sid, session_id_read s = .ok sid) ∨
      session_id_read s = .error .keyError ∨
      session_id_read s = .error .valueError := by
  unfold session_id_read session_id pyStrE
  cases dictFind s "session_id" with
  | none => simp
  | some v => cases v <;> simp

theorem run_sessions_loop_ok_count (l : List SessionData) (st : LoopState)
    (h : ∀ s ∈ l, session_id_read s ≠ .error .keyError) :
    ∃ st2, run_sessions_loop false l st = .ok st2 ∧
      st2.count = st.count + l.length := by
  induction l generalizing st with
  | nil => exact ⟨st, rfl, by simp⟩
  | cons s rest ih =>
    have hs := h s (by simp)
    have hrest : ∀ x ∈ rest, session_id_read x ≠ .error .keyError :=
      fun x hx => h x (by simp [hx])
    rcases session_id_read_cases s with ⟨sid, hok⟩ | hkey | hval
    · obtain ⟨st2, heq, hc⟩ := ih ⟨st.count + 1, st.details ++ [(st.count + 1, s)],
        st.table ++ [(st.count + 1, sid)]⟩ hrest
      refine ⟨st2, ?_, ?_⟩
      · simp [run_sessions_loop, hok, heq]
      · simp [hc, Nat.add_comm, Nat.add_assoc, Nat.add_left_comm]
    · exact absurd hkey hs
    · obtain ⟨st2, heq, hc⟩ := ih ⟨st.count + 1, st.details ++ [(st.count + 1, s)],
        st.table⟩ hrest
      refine ⟨st2, ?_, ?_⟩
      · simp [run_sessions_loop, hval, heq]
      · simp [hc, Nat.add_comm, Nat.add_assoc, Nat.add_left_comm]

theorem run_sessions_loop_error_keyError (l : List SessionData) (st : LoopState)
    (e : PyErr) (st2 : LoopState)
    (h : run_sessions_loop false l st = .error (e, st2)) : e = .keyError := by
  induction l generalizing st with
  | nil => simp [run_sessions_loop] at h
  | cons s rest ih =>
    rcases session_id_read_cases s with ⟨sid, hok⟩ | hkey | hval
    · rw [run_sessions_loop, hok] at h
      exact ih _ h
    · rw [run_sessions_loop, hkey] at h
      simp at h
      exact h.1.symm
    · rw [run_sessions_loop, hval] at h
      simp at h
      exact ih _ h

theorem mapIsTranscoding_error_keyError (l : List SessionData) (e : PyErr)
    (h : mapIsTranscoding l = .error e) : e = .keyError := by
  induction l with
  | nil => simp [mapIsTranscoding] at h
  | cons s rest ih =>
    rw [mapIsTranscoding] at h
    unfold is_transcoding at h
    cases hf : dictFind s "stream_container_decision" with
    | none =>
      rw [hf] at h
      simp at h
      exact h.symm
    | some v =>
      rw [hf] at h
      cases hm : mapIsTranscoding rest with
      | error e2 =>
        rw [hm] at h
        simp at h
        rw [h] at hm
        exact ih hm
      | ok bs =>
        rw [hm] at h
        simp at h

theorem message_exc_cases (d : ActivityData) :
    message_exc d = .ok () ∨ message_exc d = .error .keyError := by
  unfold message_exc transcode_count
  by_cases hsc : 0 < stream_count d
  · simp only [hsc, if_true]
    cases hm : mapIsTranscoding (sessionsOf d) with
    | error e =>
      right
      rw [mapIsTranscoding_error_keyError _ _ hm]
    | ok flags => left; rfl
  · simp [hsc]

theorem message_exc_of_no_sessions (d : ActivityData)
    (h : sessionsOf d = []) : message_exc d = .ok () := by
  unfold message_exc transcode_count
  rw [h]
  by_cases hsc : 0 < stream_count d <;> simp [hsc, mapIsTranscoding]

theorem refresh_data_no_crash (api : ApiBehavior) (prev : IndexTable)
    (h : api.analyticsRaises = false) :
    exceptOk (refresh_data api prev) = true := by
  unfold refresh_data
  cases hact : api.activity with
  | none => rfl
  | some d =>
    by_cases ht : truthy d
    · simp only [ht, if_true]
      cases hloop : run_sessions_loop api.analyticsRaises (sessionsOf d) ⟨0, [], []⟩ with
      | ok st =>
        rcases message_exc_cases d with hm | hm
        · rw [hm]; rfl
        · rw [hm, h]; rfl
      | error p =>
        obtain ⟨e, st⟩ := p
        rw [h] at hloop
        rw [run_sessions_loop_error_keyError _ _ _ _ hloop, h]
        rfl
    · simp [ht]
      rfl

theorem sessionsOf_three {d : ActivityData} {sA sB sC : SessionData}
    (hs : sessionsOf d = [sA, sB, sC]) : truthy d = true := by
  cases hb : d.hasSessions with
  | false => rw [sessionsOf, hb] at hs; simp at hs
  | true => simp [truthy, hb]

/-! ### Claims -/

/-- C1 counterexample: the claim says a ConnectivityFailure poll clears
`session_ids` so that `terminate(1)` is Rejected regardless of prior
content. On a falsy payload the source never touches the global: with prior
table `{1: "abc"}`, after the failed poll the table still holds `1` and
`stop_stream` reaches the API call (the server-refused outcome here), not
the invalid-stream rejection. -/
theorem C1_counterexample :
    refresh_data ⟨none, false, false⟩ [(1, "abc")] =
      .ok (connectionLostResult, [(1, "abc")]) ∧
    stop_stream alwaysDeny false [(1, "abc")] 1 =
      .ok (.couldNotStop, [(1, "abc")]) ∧
    StopResult.couldNotStop ≠ StopResult.invalidStream := by
  refine ⟨rfl, rfl, ?_⟩
  intro h
  exact StopResult.noConfusion h

/-- C1 (amended): after a poll in which the monitoring API returns an
empty/falsy payload, `refresh_data` produces the connection-lost result
(zero active sessions, no activity, server reported offline) but leaves the
process-wide `session_ids` table **unchanged**, so a subsequent
`terminate(1)` behaves exactly as it would have against the pre-poll table
— Rejected only if `1` was not already a key. -/
theorem C1_amended (api : ApiBehavior) (prev : IndexTable)
    (h : api.activity = none ∨ ∃ d, api.activity = some d ∧ truthy d = false) :
    refresh_data api prev = .ok (connectionLostResult, prev) := by
  unfold refresh_data
  rcases h with h | ⟨d, h1, h2⟩
  · rw [h]
  · rw [h1]
    simp [h2]

/-- C1 witness: the amended statement at a falsy (`None`) payload with a
concrete prior table. -/
theorem C1_amended_witness :
    refresh_data ⟨none, false, false⟩ [(2, "x")] =
      .ok (connectionLostResult, [(2, "x")]) :=
  C1_amended ⟨none, false, false⟩ [(2, "x")] (Or.inl rfl)

/-- C2 counterexample: the claim says the table is never a prefix of an
aborted rebuild. Payload with two sessions, the second missing
`session_id`: the loop indexes session 1, then the `KeyError` aborts the
poll, and the global is left holding exactly the one-entry prefix
`{1: "a"}` — neither empty nor a complete mapping of the two-session
poll. -/
theorem C2_counterexample :
    refresh_data
        ⟨some ⟨true, [[("session_id", PyVal.vStr "a")], []], []⟩, true, false⟩
        [(5, "z")] =
      .ok (connectionLostResult, [(1, "a")]) ∧
    ([(1, "a")] : IndexTable) ≠ [] := by
  refine ⟨rfl, ?_⟩
  simp

/-- C2 (amended): on every truthy-payload poll the table pointer is
replaced wholesale before the rebuild, so the post-poll table never
contains an entry from the previous poll — it is the same whatever the
prior table was. But a poll aborted by a `KeyError` leaves the prefix of
entries indexed before the failure installed, not an empty table. -/
theorem C2_amended (api : ApiBehavior) (d : ActivityData)
    (t1 t2 : IndexTable)
    (h1 : api.activity = some d) (h2 : truthy d = true) :
    tableAfter (refresh_data api t1) = tableAfter (refresh_data api t2) := by
  unfold refresh_data
  rw [h1]
  simp only [h2, if_true]

/-- C2 witness: the amended statement at a concrete payload and two
distinct prior tables. -/
theorem C2_amended_witness :
    tableAfter (refresh_data ⟨some ⟨true, [], []⟩, false, false⟩ [(1, "old")]) =
      tableAfter (refresh_data ⟨some ⟨true, [], []⟩, false, false⟩ []) :=
  C2_amended ⟨some ⟨true, [], []⟩, false, false⟩ ⟨true, [], []⟩
    [(1, "old")] [] rfl rfl

/-- C3 counterexample: the claim says that with sessions [A, B, C] where
B's id is unreadable the table becomes `{1: A.id, 2: C.id}`. The source
increments `count` before reading the id, so the skipped session consumes
index 2 and C lands at index 3: the table is the sparse `{1: "a", 3: "c"}`,
not `{1: "a", 2: "c"}`. -/
theorem C3_counterexample :
    refresh_data
        ⟨some ⟨true, [[("session_id", PyVal.vStr "a")],
          [("session_id", PyVal.vBad)],
          [("session_id", PyVal.vStr "c")]], []⟩, true, false⟩ [] =
      .ok (⟨false, 3, true, true,
        [(1, [("session_id", PyVal.vStr "a")]),
         (2, [("session_id", PyVal.vBad)]),
         (3, [("session_id", PyVal.vStr "c")])]⟩,
        [(1, "a"), (3, "c")]) ∧
    ([(1, "a"), (3, "c")] : IndexTable) ≠ [(1, "a"), (2, "c")] := by
  refine ⟨rfl, ?_⟩
  simp

/-- C3 (amended): during reconciliation of a successful poll, a session
whose id read raises a session-level `ValueError` is skipped (logged, the
snapshot not aborted) but its index is still consumed: for sessions
[A, B, C] in payload order with B's id unreadable, the count is 3, the
rendered descriptors still list all three sessions as 1, 2, 3, and the
resulting table is the sparse `{1: A.id, 3: C.id}` — index 2 is left as a
gap, not reassigned to C. -/
theorem C3_amended (api : ApiBehavior) (d : ActivityData) (prev : IndexTable)
    (sA sB sC : SessionData) (a c : String)
    (hact : api.activity = some d)
    (hs : sessionsOf d = [sA, sB, sC])
    (hA : session_id_read sA = .ok a)
    (hB : session_id_read sB = .error PyErr.valueError)
    (hC : session_id_read sC = .ok c)
    (hana : api.analyticsRaises = false)
    (hm : message_exc d = .ok ()) :
    refresh_data api prev =
      .ok (⟨false, 3, true, api.serverOnline, [(1, sA), (2, sB), (3, sC)]⟩,
        [(1, a), (3, c)]) := by
  have ht := sessionsOf_three hs
  unfold refresh_data
  rw [hact]
  simp only [ht, if_true]
  rw [hana, hs]
  simp [run_sessions_loop, hA, hB, hC, hm]

/-- C3 witness: the amended statement at the concrete three-session payload
whose middle session id read raises `ValueError`. -/
theorem C3_amended_witness :
    refresh_data
        ⟨some ⟨true, [[("session_id", PyVal.vStr "a")],
          [("session_id", PyVal.vBad)],
          [("session_id", PyVal.vStr "c")]], []⟩, false, false⟩ [(9, "old")] =
      .ok (⟨false, 3, true, false,
        [(1, [("session_id", PyVal.vStr "a")]),
         (2, [("session_id", PyVal.vBad)]),
         (3, [("session_id", PyVal.vStr "c")])]⟩,
        [(1, "a"), (3, "c")]) :=
  C3_amended _ _ [(9, "old")] _ _ _ "a" "c" rfl rfl rfl rfl rfl rfl rfl

/-- C4: for every successful poll whose payload contains sessions
[A, B, C] in that order, all with readable ids, `refresh_data` rebuilds the
table to exactly `{1: A.id, 2: B.id, 3: C.id}` — consecutive 1-based
indices in payload order — with stream count 3. -/
theorem C4_refresh_table (api : ApiBehavior) (d : ActivityData)
    (prev : IndexTable) (sA sB sC : SessionData) (a b c : String)
    (hact : api.activity = some d)
    (hs : sessionsOf d = [sA, sB, sC])
    (hA : session_id_read sA = .ok a)
    (hB : session_id_read sB = .ok b)
    (hC : session_id_read sC = .ok c)
    (hm : message_exc d = .ok ()) :
    refresh_data api prev =
      .ok (⟨false, 3, true, api.serverOnline, [(1, sA), (2, sB), (3, sC)]⟩,
        [(1, a), (2, b), (3, c)]) := by
  have ht := sessionsOf_three hs
  unfold refresh_data
  rw [hact]
  simp only [ht, if_true]
  rw [hs]
  simp [run_sessions_loop, hA, hB, hC, hm]

/-- C4 witness: the theorem at a concrete three-session payload with
readable ids "a", "b", "c". -/
theorem C4_refresh_table_witness :
    refresh_data
        ⟨some ⟨true, [[("session_id", PyVal.vStr "a")],
          [("session_id", PyVal.vStr "b")],
          [("session_id", PyVal.vStr "c")]], []⟩, true, false⟩ [(7, "old")] =
      .ok (⟨false, 3, true, true,
        [(1, [("session_id", PyVal.vStr "a")]),
         (2, [("session_id", PyVal.vStr "b")]),
         (3, [("session_id", PyVal.vStr "c")])]⟩,
        [(1, "a"), (2, "b"), (3, "c")]) :=
  C4_refresh_table _ _ [(7, "old")] _ _ _ "a" "b" "c" rfl rfl rfl rfl rfl rfl

/-- C5: `stop_stream(index)` returns the invalid-stream rejection iff the
index is not a key of the current table; for a known index it returns the
stopped outcome when the API terminate call returns a truthy result, the
could-not-stop outcome when it returns a falsy result, and the
something-went-wrong outcome when the call raises (the analytics
collaborator itself not raising); and the table is unchanged on every
returned outcome. -/
theorem C5_stop_stream (terminate : String → Except Unit Bool)
    (t : IndexTable) (n : Nat) :
    (stop_stream terminate false t n = .ok (.invalidStream, t) ↔
      lookupIndex t n = none) ∧
    (∀ sid, lookupIndex t n = some sid →
      (terminate sid = .ok true →
        stop_stream terminate false t n = .ok (.stopped, t)) ∧
      (terminate sid = .ok false →
        stop_stream terminate false t n = .ok (.couldNotStop, t)) ∧
      (terminate sid = .error () →
        stop_stream terminate false t n = .ok (.somethingWentWrong, t))) ∧
    (∀ r t2, stop_stream terminate false t n = .ok (r, t2) → t2 = t) := by
  cases hl : lookupIndex t n with
  | none =>
    refine ⟨by simp [stop_stream, hl], ?_, ?_⟩
    · intro sid hsid
      exact Option.noConfusion hsid
    · intro r t2 h
      simp [stop_stream, hl] at h
      exact h.2.symm
  | some sid0 =>
    refine ⟨⟨?_, ?_⟩, ?_, ?_⟩
    · intro h
      exfalso
      cases hterm : terminate sid0 with
      | ok b =>
        cases b <;> simp [stop_stream, hl, hterm] at h
      | error u =>
        cases u
        simp [stop_stream, hl, hterm] at h
    · intro h
      exact Option.noConfusion h
    · intro sid hsid
      injection hsid with hsid
      subst hsid
      refine ⟨?_, ?_, ?_⟩ <;> intro hterm <;> simp [stop_stream, hl, hterm]
    · intro r t2 h
      cases hterm : terminate sid0 with
      | ok b =>
        cases b <;> simp [stop_stream, hl, hterm] at h <;> exact h.2.symm
      | error u =>
        cases u
        simp [stop_stream, hl, hterm] at h
        exact h.2.symm

/-- C5 witness: an index absent from a concrete one-entry table is
rejected as an invalid stream number. -/
theorem C5_stop_stream_witness :
    stop_stream alwaysDeny false [(1, "s")] 2 = .ok (.invalidStream, [(1, "s")]) :=
  (C5_stop_stream alwaysDeny [(1, "s")] 2).1.mpr rfl

/-- C6 counterexample: the claim says `wan_bandwidth` coerces each
bandwidth field to an integer (substituting 0 on error) before
subtracting, and never raises even for a non-numeric string field. In the
source the subtraction `total - lan` happens on the raw values outside any
`try`: with `total_bandwidth` the string "abc" (and `lan_bandwidth`
absent, defaulting to the int 0), `"abc" - 0` raises a `TypeError` that
propagates out of the property. -/
theorem C6_counterexample :
    wan_bandwidth ⟨false, [], [("total_bandwidth", PyVal.vStr "abc")]⟩ =
      .error PyErr.typeError ∧
    exceptOk
      (wan_bandwidth ⟨false, [], [("total_bandwidth", PyVal.vStr "abc")]⟩) =
      false :=
  ⟨rfl, rfl⟩

/-- C6 (amended): `wan_bandwidth` subtracts the two raw field values with
**no** prior integer coercion. When both fields are integers (an absent
field defaulting to the integer 0) the difference is coerced to a
displayable unit and the property returns it without failing; when either
present field is a string — numeric or not — `None`, or a non-JSON value,
the raw subtraction raises a `TypeError` that propagates out of the
property. -/
theorem C6_amended (d : ActivityData) (tv lv : Int)
    (h1 : dictGetD d.fields "total_bandwidth" (.vInt 0) = .vInt tv)
    (h2 : dictGetD d.fields "lan_bandwidth" (.vInt 0) = .vInt lv) :
    wan_bandwidth d = .ok (some (human_bitrate ((tv - lv) * 1024))) := by
  simp only [wan_bandwidth]
  rw [h1, h2]
  rfl

/-- C6 witness: the amended statement at a payload with integer bandwidth
fields 300 and 100. -/
theorem C6_amended_witness :
    wan_bandwidth ⟨false, [], [("total_bandwidth", PyVal.vInt 300),
      ("lan_bandwidth", PyVal.vInt 100)]⟩ =
      .ok (some (human_bitrate ((300 - 100) * 1024))) :=
  C6_amended ⟨false, [], [("total_bandwidth", PyVal.vInt 300),
    ("lan_bandwidth", PyVal.vInt 100)]⟩ 300 100 rfl rfl

/-- C7 counterexample: the claim says an exception raised by the analytics
event call never propagates out of the calling operation, and in
particular that `stop_stream` never crashes. `_error_and_analytics` does
not guard the analytics call: with a known index whose terminate call
raises and an analytics collaborator that raises, the analytics exception
escapes `stop_stream` instead of the Failed outcome being returned. -/
theorem C7_counterexample :
    stop_stream alwaysRaise true [(1, "s")] 1 = .error PyErr.otherError ∧
    exceptOk (stop_stream alwaysRaise true [(1, "s")] 1) = false :=
  ⟨rfl, rfl⟩

/-- C7 (amended): failure reporting through `_error_and_analytics` is
**not** shielded: when the analytics event call raises, the exception
propagates out of `stop_stream` (replacing the something-went-wrong
outcome with a crash). Only when the analytics call does not raise do
`stop_stream` and `refresh_data` always return instead of crashing. -/
theorem C7_amended (terminate : String → Except Unit Bool) (t : IndexTable)
    (n : Nat) (api : ApiBehavior) (prev : IndexTable) (sid : String)
    (h : api.analyticsRaises = false)
    (hsid : lookupIndex t n = some sid) :
    exceptOk (stop_stream terminate false t n) = true ∧
    exceptOk (refresh_data api prev) = true ∧
    stop_stream alwaysRaise true t n = .error PyErr.otherError := by
  refine ⟨?_, refresh_data_no_crash api prev h, ?_⟩
  · cases hl2 : lookupIndex t n with
    | none => simp [stop_stream, hl2, exceptOk]
    | some s =>
      cases hterm : terminate s with
      | ok b => cases b <;> simp [stop_stream, hl2, hterm, exceptOk]
      | error u =>
        cases u
        simp [stop_stream, hl2, hterm, exceptOk]
  · simp [stop_stream, hsid, alwaysRaise]

/-- C7 witness: the amended statement at a concrete table, a denying
terminate stub for the benign part, and the raising stub for the crash
part. -/
theorem C7_amended_witness :
    exceptOk (stop_stream alwaysDeny false [(1, "s")] 1) = true ∧
    exceptOk (refresh_data ⟨none, false, false⟩ []) = true ∧
    stop_stream alwaysRaise true [(1, "s")] 1 = .error PyErr.otherError :=
  C7_amended alwaysDeny [(1, "s")] 1 ⟨none, false, false⟩ [] "s" rfl rfl

/-- C8 counterexample: the claim says the coerced position and duration
are non-negative and that `progress_percentage` equals
`floor(position/duration)` whenever duration is positive. With raw fields
`duration = "200"` and `view_offset = "-50"` the coerced position is the
negative integer -50, and the property yields `int(-50/200) = 0` —
truncation toward zero — while the floor is -1. -/
theorem C8_counterexample :
    duration_milliseconds
      [("duration", PyVal.vStr "200"), ("view_offset", PyVal.vStr "-50")] = 200 ∧
    location_milliseconds
      [("duration", PyVal.vStr "200"), ("view_offset", PyVal.vStr "-50")] = -50 ∧
    progress_percentage
      [("duration", PyVal.vStr "200"), ("view_offset", PyVal.vStr "-50")] = 0 ∧
    Int.fdiv
      (location_milliseconds
        [("duration", PyVal.vStr "200"), ("view_offset", PyVal.vStr "-50")])
      (duration_milliseconds
        [("duration", PyVal.vStr "200"), ("view_offset", PyVal.vStr "-50")]) =
      -1 ∧
    ¬(0 ≤ location_milliseconds
      [("duration", PyVal.vStr "200"), ("view_offset", PyVal.vStr "-50")]) := by
  decide

/-- C8 (amended): `progress_percentage` equals the literal non-normalized
integer ratio of the coerced values — e.g. position 50, duration 200
yields 0 — computed as `int()` truncation toward zero; it equals
`floor(positionMs / durationMs)` when the coerced duration is positive
**and** the coerced position is non-negative, and equals 0 when the
coerced duration is 0. The defensive coercion substitutes 0 on error but
can produce negative integers from negative numeral fields, and for a
negative position with positive duration the property truncates toward
zero rather than flooring. -/
theorem C8_amended (s : SessionData) :
    (0 < duration_milliseconds s → 0 ≤ location_milliseconds s →
      progress_percentage s =
        Int.fdiv (location_milliseconds s) (duration_milliseconds s)) ∧
    (duration_milliseconds s = 0 → progress_percentage s = 0) := by
  constructor
  · intro hd hl
    unfold progress_percentage
    rw [if_neg (by omega)]
    exact (Int.fdiv_eq_tdiv hl (le_of_lt hd)).symm
  · intro h
    simp [progress_percentage, h]

/-- C8 witness: the amended floor equation at position 50, duration 200,
where the literal ratio is 0. -/
theorem C8_amended_witness :
    progress_percentage
      [("duration", PyVal.vInt 200), ("view_offset", PyVal.vInt 50)] =
      Int.fdiv
        (location_milliseconds
          [("duration", PyVal.vInt 200), ("view_offset", PyVal.vInt 50)])
        (duration_milliseconds
          [("duration", PyVal.vInt 200), ("view_offset", PyVal.vInt 50)]) :=
  (C8_amended [("duration", PyVal.vInt 200), ("view_offset", PyVal.vInt 50)]).1
    (by decide) (by decide)

/-- C9: on every successful poll the active-stream count returned by
`refresh_data` equals the number of raw session records in the payload,
even when individual sessions fail to be indexed (a `ValueError` on the id
read) and are absent from the rebuilt table — `count` is incremented
before the id read can fail. The hypotheses say the poll succeeds: truthy
payload, no session missing its `session_id` key, the overview message
constructible, the analytics collaborator benign. -/
theorem C9_count (api : ApiBehavior) (d : ActivityData) (prev : IndexTable)
    (hact : api.activity = some d) (ht : truthy d = true)
    (hana : api.analyticsRaises = false)
    (hkeys : ∀ s ∈ sessionsOf d, session_id_read s ≠ .error PyErr.keyError)
    (hm : message_exc d = .ok ()) :
    ∃ details tbl,
      refresh_data api prev =
        .ok (⟨false, (sessionsOf d).length, true, api.serverOnline, details⟩,
          tbl) := by
  obtain ⟨st2, heq, hc⟩ := run_sessions_loop_ok_count (sessionsOf d) ⟨0, [], []⟩ hkeys
  refine ⟨st2.details, st2.table, ?_⟩
  unfold refresh_data
  rw [hact]
  simp only [ht, if_true]
  rw [hana, heq, hm]
  have hlen : st2.count = (sessionsOf d).length := by simpa using hc
  simp [hlen]

/-- C9 witness: a concrete two-session payload whose second session id
read raises `ValueError`: the returned count is 2, the number of raw
records, while the rebuilt table only holds the first session. -/
theorem C9_count_witness :
    ∃ details tbl,
      refresh_data
          ⟨some ⟨true, [[("session_id", PyVal.vStr "a")],
            [("session_id", PyVal.vBad)]], []⟩, false, false⟩ [] =
        .ok (⟨false, 2, true, false, details⟩, tbl) :=
  C9_count ⟨some ⟨true, [[("session_id", PyVal.vStr "a")],
      [("session_id", PyVal.vBad)]], []⟩, false, false⟩
    ⟨true, [[("session_id", PyVal.vStr "a")],
      [("session_id", PyVal.vBad)]], []⟩ [] rfl rfl rfl (by decide) rfl

/-- C10: if a truthy payload lacks the `'sessions'` key entirely then
`Activity.sessions` is the empty list and `refresh_data` treats the poll
as a success: no connection-lost or construction failure is surfaced, the
returned stream count is 0, and an empty table is installed (discarding
the previous one). -/
theorem C10_missing_sessions (api : ApiBehavior) (d : ActivityData)
    (prev : IndexTable) (hact : api.activity = some d)
    (hns : d.hasSessions = false) (hf : d.fields ≠ []) :
    sessionsOf d = [] ∧
    refresh_data api prev =
      .ok (⟨false, 0, true, api.serverOnline, []⟩, []) := by
  have hs : sessionsOf d = [] := by simp [sessionsOf, hns]
  have ht : truthy d = true := by
    cases hfld : d.fields with
    | nil => exact absurd hfld hf
    | cons p l => simp [truthy, hns, hfld]
  have hm : message_exc d = .ok () := message_exc_of_no_sessions d hs
  refine ⟨hs, ?_⟩
  unfold refresh_data
  rw [hact]
  simp only [ht, if_true]
  rw [hs]
  simp [run_sessions_loop, hm]

/-- C10 witness: a payload whose only key is a positive `stream_count`
(so the truthy dict exercises the transcode-count branch of the overview
message): success with zero streams and an empty table, replacing a
non-empty prior table. -/
theorem C10_missing_sessions_witness :
    sessionsOf ⟨false, [], [("stream_count", PyVal.vInt 3)]⟩ = [] ∧
    refresh_data
        ⟨some ⟨false, [], [("stream_count", PyVal.vInt 3)]⟩, true, false⟩
        [(9, "q")] =
      .ok (⟨false, 0, true, true, []⟩, []) :=
  C10_missing_sessions
    ⟨some ⟨false, [], [("stream_count", PyVal.vInt 3)]⟩, true, false⟩
    ⟨false, [], [("stream_count", PyVal.vInt 3)]⟩ [(9, "q")] rfl rfl
    (by simp)

end Tauticord
